import Mathlib

/-!
Shallow embedding of the requirement-specification and lowering engine of
the uv package manager core, together with proofs of the specification
claims about it.

The embedding follows the Rust sources:
- crates/uv-requirements/src/pyproject.rs (Source, Project, PyProjectToml,
  UvMetadata::try_from, lower_requirements, lower_requirement, flatten_extra)
- crates/pep508-rs/src/uv_requirement.rs (UvRequirement, UvSource,
  GitVersion, evaluate_markers, from_requirement)
- crates/requirements-txt/src/requirement.rs (RequirementsTxtRequirement)

Rust `HashMap`/`IndexMap` values are modelled as association lists,
`FxHashSet` as a list with set-insertion, and a Rust panic (`todo!`) is
made explicit through the `PanicOr` result wrapper.  Types whose code is
not part of this repository snapshot (normalized names, verbatim URLs,
markers, the PEP 508 parser, `ExtrasSpecification`) are modelled from the
specification; each such definition says so in its doc comment.
-/

namespace UvSpec

/-- Modelled from the spec: uv-normalize `PackageName` is not under src/;
names are treated as already-normalized identifiers compared by equality. -/
structure PackageName where
  name : String
deriving DecidableEq, Repr

/-- Modelled from the spec: uv-normalize `ExtraName` is not under src/;
extras are treated as already-normalized identifiers compared by equality. -/
structure ExtraName where
  name : String
deriving DecidableEq, Repr

/-- A filesystem path (the payload of the workspace-membership map). -/
structure PathBuf where
  path : String
deriving DecidableEq, Repr

/-- Modelled from the spec: pep508-rs `VerbatimUrl` is not under src/; the
spec treats URLs as opaque in-memory text, so the text is kept verbatim. -/
structure VerbatimUrl where
  given : String
deriving DecidableEq, Repr

/-- Modelled from the spec: pep508-rs `VerbatimUrl` parsing is not under
src/; URL text already in memory is wrapped verbatim. -/
def VerbatimUrl.from_str (s : String) : VerbatimUrl :=
  ⟨s⟩

/-- Modelled from the spec: pep440 `VersionSpecifiers` is not under src/;
an immutable collection of version-range predicates, kept as text. -/
structure VersionSpecifiers where
  specifiers : List String
deriving DecidableEq, Repr

/-- `VersionSpecifiers::empty()`. -/
def VersionSpecifiers.empty : VersionSpecifiers :=
  ⟨[]⟩

/-- Modelled from the spec: a single comparison atom of a marker
expression: either an environment-attribute comparison or an extras
activation test of the form `extra == "name"`. -/
inductive MarkerExpr where
  | attrEq (attr : String) (value : String)
  | extraEq (value : ExtraName)
deriving DecidableEq, Repr

/-- Modelled from the spec: `MarkerTree` is an immutable
boolean-expression AST over environment attributes and extras
activation (pep508-rs markers are not under src/). -/
inductive MarkerTree where
  | expression (e : MarkerExpr)
  | conj (l r : MarkerTree)
  | disj (l r : MarkerTree)
deriving DecidableEq, Repr

/-- Modelled from the spec: the target environment descriptor is a set of
static attributes (OS name, platform strings, Python version components,
implementation name/version), looked up by attribute name. -/
structure MarkerEnvironment where
  attrs : List (String × String)
deriving DecidableEq, Repr

/-- Attribute lookup in a target environment (absent attributes read as
the empty string). -/
def MarkerEnvironment.get (env : MarkerEnvironment) (a : String) : String :=
  match env.attrs.find? (fun p => p.1 == a) with
  | some p => p.2
  | none => ""

/-- Modelled from the spec: evaluate the marker AST against the
environment's static attributes and the caller-supplied enabled-extras
set; a term `extra == "x"` holds only when `x` is among the supplied
extras. -/
def MarkerTree.evaluate (m : MarkerTree) (env : MarkerEnvironment)
    (extras : List ExtraName) : Bool :=
  match m with
  | .expression (.attrEq a v) => env.get a == v
  | .expression (.extraEq v) => extras.contains v
  | .conj l r => l.evaluate env extras && r.evaluate env extras
  | .disj l r => l.evaluate env extras || r.evaluate env extras

/-- `pep508_rs::VersionOrUrl`: a version-specifier set or a URL. -/
inductive VersionOrUrl where
  | versionSpecifier (v : VersionSpecifiers)
  | url (u : VerbatimUrl)
deriving DecidableEq, Repr

/-- `pep508_rs::Requirement`: the parsed PEP 508 form. -/
structure Requirement where
  name : PackageName
  extras : List ExtraName
  marker : Option MarkerTree
  version_or_url : Option VersionOrUrl
deriving DecidableEq, Repr

/-- `pep508_rs::GitVersion` (uv_requirement.rs). -/
inductive GitVersion where
  | rev (s : String)
  | tag (s : String)
  | branch (s : String)
deriving DecidableEq, Repr

/-- `pep508_rs::UvSource` (uv_requirement.rs): provenance of a canonical
requirement. -/
inductive UvSource where
  | registry (version : VersionSpecifiers) (index : Option String)
  | url (url : VerbatimUrl)
  | git (git : VerbatimUrl) (version : Option GitVersion)
  | path (path : String)
deriving DecidableEq, Repr

/-- `pep508_rs::UvRequirement` (uv_requirement.rs): the canonical
requirement. -/
structure UvRequirement where
  name : PackageName
  extras : List ExtraName
  marker : Option MarkerTree
  source : UvSource
deriving DecidableEq, Repr

/-- Result of a Rust computation that can panic: either a value or a
panic with its message (`todo!()` panics with "not yet implemented"). -/
inductive PanicOr (α : Type) where
  | value (a : α)
  | panic (msg : String)
deriving DecidableEq, Repr

/-- `UvRequirement::evaluate_markers` (uv_requirement.rs): true when no
marker is present, else the marker evaluated against environment and
extras. -/
def UvRequirement.evaluate_markers (r : UvRequirement)
    (env : MarkerEnvironment) (extras : List ExtraName) : Bool :=
  match r.marker with
  | some marker => marker.evaluate env extras
  | none => true

/-- `UvRequirement::from_requirement` (uv_requirement.rs).  The URL arm
is `todo!("match on the url type")` in the source, i.e. a panic. -/
def UvRequirement.from_requirement (requirement : Requirement) :
    PanicOr UvRequirement :=
  match requirement.version_or_url with
  | none =>
      .value ⟨requirement.name, requirement.extras, requirement.marker,
        .registry VersionSpecifiers.empty none⟩
  | some (.versionSpecifier version) =>
      .value ⟨requirement.name, requirement.extras, requirement.marker,
        .registry version none⟩
  | some (.url _) => .panic "not yet implemented: match on the url type"

/-- `Source` (pyproject.rs): the raw, pre-validation override from
`tool.uv.sources`.  Field names follow the Rust declaration; note the
`Path` variant's field is literally spelled `patch` in the source. -/
inductive Source where
  | git (git : String) (rev : Option String) (tag : Option String)
      (branch : Option String)
  | url (url : String)
  | path (patch : String) (editable : Option Bool)
  | registry (index : String)
  | workspace (workspace : Bool) (editable : Option Bool)
  | catchAll (git : String) (rev : Option String) (tag : Option String)
      (branch : Option String) (url : String) (patch : String)
      (index : String) (workspace : Bool)
deriving DecidableEq, Repr

/-- Association-list model of `HashMap::get` (first matching key). -/
def lookupMap {α β : Type} [BEq α] (m : List (α × β)) (k : α) : Option β :=
  (m.find? (fun p => p.1 == k)).map Prod.snd

/-- Association-list model of `HashMap::contains_key`. -/
def containsKey {α β : Type} [BEq α] (m : List (α × β)) (k : α) : Bool :=
  m.any (fun p => p.1 == k)

/-- The typed content of the `bail!`/`anyhow!` errors raised by
`lower_requirement` (pyproject.rs); each constructor corresponds to one
error site and carries the package name the message mentions. -/
inductive LoweringError where
  | workspacePolicy (name : PackageName)
  | missingConstraint
  | conflictingGitRefs
  | conflictingSources (name : PackageName)
deriving DecidableEq, Repr

/-- The override lookup of `lower_requirement`: the project-level map
takes precedence over the workspace-level map. -/
def resolvedSource (requirement : Requirement)
    (project_sources workspace_sources : List (PackageName × Source)) :
    Option Source :=
  match lookupMap project_sources requirement.name with
  | some s => some s
  | none => lookupMap workspace_sources requirement.name

/-- The `matches!(source, Some(Source::Workspace { workspace: true, .. }))`
test of `lower_requirement`. -/
def matchesWorkspaceTrue : Option Source → Bool
  | some (.workspace true _) => true
  | _ => false

/-- The `match (rev, tag, branch)` of the `Git` arm of
`lower_requirement`: at most one of the three selectors may be set. -/
def resolveGitRef (rev tag branch : Option String) :
    Except LoweringError (Option GitVersion) :=
  match rev, tag, branch with
  | none, none, none => .ok none
  | some r, none, none => .ok (some (.rev r))
  | none, some t, none => .ok (some (.tag t))
  | none, none, some b => .ok (some (.branch b))
  | _, _, _ => .error .conflictingGitRefs

/-- `lower_requirement` (pyproject.rs): combine a parsed requirement with
the override maps and the workspace-membership map.  The `Path`,
`Registry` and `Workspace` override arms are `todo!()` in the source,
i.e. panics. -/
def lower_requirement (requirement : Requirement)
    (project_sources workspace_sources : List (PackageName × Source))
    (workspace_packages : List (PackageName × PathBuf)) :
    PanicOr (Except LoweringError UvRequirement) :=
  let source := resolvedSource requirement project_sources workspace_sources
  if !matchesWorkspaceTrue source
      && containsKey workspace_packages requirement.name then
    .value (.error (.workspacePolicy requirement.name))
  else
    match source with
    | none =>
        if requirement.version_or_url.isNone then
          .value (.error .missingConstraint)
        else
          match UvRequirement.from_requirement requirement with
          | .value r => .value (.ok r)
          | .panic m => .panic m
    | some s =>
        match s with
        | .git git rev tag branch =>
            match resolveGitRef rev tag branch with
            | .error e => .value (.error e)
            | .ok git_ref =>
                .value (.ok ⟨requirement.name, requirement.extras,
                  requirement.marker,
                  .git (VerbatimUrl.from_str git) git_ref⟩)
        | .url url =>
            .value (.ok ⟨requirement.name, requirement.extras,
              requirement.marker, .url (VerbatimUrl.from_str url)⟩)
        | .path _ _ => .panic "not yet implemented"
        | .registry _ => .panic "not yet implemented"
        | .workspace _ _ => .panic "not yet implemented"
        | .catchAll _ _ _ _ _ _ _ _ =>
            .value (.error (.conflictingSources requirement.name))

/-! ### flatten_extra (pyproject.rs)

The Rust function threads a mutable visited-extras set (`FxHashSet`)
through a depth-first expansion.  The embedding makes the three nested
loops of `inner` explicit as one recursive function over a task marker
(`reqs` = the outer loop over a requirement list, `exs` = the loop over
one self-referential requirement's extras, `pairs` = the scan of the
optional-dependency map for one extra), passing the visited set in and
returning the newly visited extras.  Termination is proved against the
measure: number of map entries whose extra is not yet visited, then a
size of the remaining task. -/

/-- The three loop positions of `flatten_extra`'s `inner`. -/
inductive FlattenTask where
  | reqs (l : List UvRequirement)
  | exs (l : List ExtraName)
  | pairs (extra : ExtraName) (l : List (ExtraName × List UvRequirement))
deriving DecidableEq, Repr

/-- `FxHashSet::contains` on the visited-extras set. -/
def seenContains (seen : List ExtraName) (e : ExtraName) : Bool :=
  seen.any (fun x => x == e)

/-- Number of optional-dependency map entries whose extra has not been
visited yet: the part of the measure that shrinks when a new extra is
inserted into the visited set. -/
def unseenCount (extras : List (ExtraName × List UvRequirement))
    (seen : List ExtraName) : Nat :=
  (extras.filter (fun p => !seenContains seen p.1)).length

/-- Weight of one requirement inside the termination measure (`e` is the
length of the optional-dependency map). -/
def reqWeight (e : Nat) (r : UvRequirement) : Nat :=
  1 + (r.extras.length + 1) * (e + 2)

/-- Weight of a requirement list inside the termination measure. -/
def reqsWeight (e : Nat) (l : List UvRequirement) : Nat :=
  (l.map (reqWeight e)).sum

/-- Size of the remaining task: the part of the measure that shrinks
within one visited-set level. -/
def taskSize (extras : List (ExtraName × List UvRequirement)) :
    FlattenTask → Nat
  | .reqs l => reqsWeight extras.length l
  | .exs l => l.length * (extras.length + 2)
  | .pairs e l =>
      ((l.filter (fun p => p.1 == e)).map
        (fun p => 1 + reqsWeight extras.length p.2)).sum + l.length

theorem length_filter_le_filter {α : Type} (p q : α → Bool) (l : List α)
    (h : ∀ a, p a = true → q a = true) :
    (l.filter p).length ≤ (l.filter q).length := by
  induction l with
  | nil => simp
  | cons a t ih =>
    simp only [List.filter_cons]
    by_cases hp : p a = true
    · simp only [hp, h a hp, if_true, List.length_cons]
      exact Nat.succ_le_succ ih
    · simp only [hp, if_false]
      by_cases hq : q a = true
      · simp only [hq, if_true, List.length_cons]
        exact Nat.le_succ_of_le ih
      · simp only [hq, if_false]
        exact ih

theorem seenContains_append (d s : List ExtraName) (e : ExtraName) :
    seenContains (d ++ s) e = (seenContains d e || seenContains s e) := by
  simp [seenContains, List.any_append]

theorem unseenCount_append_le (extras : List (ExtraName × List UvRequirement))
    (d seen : List ExtraName) :
    unseenCount extras (d ++ seen) ≤ unseenCount extras seen := by
  apply length_filter_le_filter
  intro a ha
  simp only [seenContains_append, Bool.not_eq_true', Bool.or_eq_false_iff] at ha
  simp [ha.2]

theorem unseenCount_cons_le (extras : List (ExtraName × List UvRequirement))
    (e : ExtraName) (seen : List ExtraName) :
    unseenCount extras (e :: seen) ≤ unseenCount extras seen := by
  have h := unseenCount_append_le extras [e] seen
  simpa using h

theorem unseenCount_cons_split (a : ExtraName × List UvRequirement)
    (t : List (ExtraName × List UvRequirement)) (s : List ExtraName) :
    unseenCount (a :: t) s =
      (if (!seenContains s a.1) = true then 1 else 0) + unseenCount t s := by
  unfold unseenCount
  rw [List.filter_cons]
  by_cases hb : (!seenContains s a.1) = true
  · simp [hb, Nat.add_comm]
  · simp [hb]

theorem unseenCount_cons_eq_of_not_key
    (extras : List (ExtraName × List UvRequirement)) (e : ExtraName)
    (seen : List ExtraName) (hk : containsKey extras e = false) :
    unseenCount extras (e :: seen) = unseenCount extras seen := by
  have hall : ∀ p ∈ extras, (p.1 == e) = false := by
    intro p hp
    rw [beq_eq_false_iff_ne]
    intro hpe
    have hc : containsKey extras e = true := by
      simp only [containsKey, List.any_eq_true]
      exact ⟨p, hp, by simp [hpe]⟩
    rw [hc] at hk
    cases hk
  unfold unseenCount
  congr 1
  apply List.filter_congr
  intro p hp
  have h1 : (e == p.1) = false :=
    beq_eq_false_iff_ne.mpr fun h =>
      absurd h.symm (beq_eq_false_iff_ne.mp (hall p hp))
  simp [seenContains, List.any_cons, h1]

theorem unseenCount_cons_lt_of_key
    (extras : List (ExtraName × List UvRequirement)) (e : ExtraName)
    (seen : List ExtraName) (hk : containsKey extras e = true)
    (hs : seenContains seen e = false) :
    unseenCount extras (e :: seen) < unseenCount extras seen := by
  induction extras with
  | nil => simp [containsKey] at hk
  | cons a t ih =>
    rw [unseenCount_cons_split, unseenCount_cons_split]
    by_cases hae : (a.1 == e) = true
    · have hae' : a.1 = e := by rwa [beq_iff_eq] at hae
      have hnew : seenContains (e :: seen) a.1 = true := by
        simp [seenContains, List.any_cons, hae']
      have hold : seenContains seen a.1 = false := by rw [hae']; exact hs
      rw [hnew, hold]
      have hle := unseenCount_cons_le t e seen
      norm_num
      omega
    · have haef : (a.1 == e) = false := by
        cases hb : a.1 == e
        · rfl
        · exact absurd hb (by simpa using hae)
      have hkt : containsKey t e = true := by
        have hsplit : containsKey (a :: t) e = ((a.1 == e) || containsKey t e) := by
          simp [containsKey, List.any_cons]
        rw [hsplit, haef, Bool.false_or] at hk
        exact hk
      have hsame : seenContains (e :: seen) a.1 = seenContains seen a.1 := by
        have h1 : (e == a.1) = false :=
          beq_eq_false_iff_ne.mpr fun h =>
            absurd h.symm (beq_eq_false_iff_ne.mp haef)
        simp [seenContains, List.any_cons, h1]
      rw [hsame]
      have ht := ih hkt
      by_cases hb : (!seenContains seen a.1) = true
      · rw [if_pos hb]
        omega
      · rw [if_neg hb]
        omega

/-- The `inner` worker of `flatten_extra` (pyproject.rs): one recursive
function over the three loop positions.  `seen` is the visited set on
entry; the second component of the result is the list of extras newly
inserted during the call (so the set after the call is that list
prepended to `seen`). -/
def flattenRun (pn : PackageName)
    (extras : List (ExtraName × List UvRequirement)) (t : FlattenTask)
    (seen : List ExtraName) : List UvRequirement × List ExtraName :=
  match t with
  | .reqs l =>
    match l with
    | [] => ([], [])
    | r :: rest =>
      if r.name == pn then
        let res1 := flattenRun pn extras (.exs r.extras) seen
        let res2 := flattenRun pn extras (.reqs rest) (res1.2 ++ seen)
        (res1.1 ++ res2.1, res2.2 ++ res1.2)
      else
        let res := flattenRun pn extras (.reqs rest) seen
        (r :: res.1, res.2)
  | .exs l =>
    match l with
    | [] => ([], [])
    | e :: rest =>
      if h : seenContains seen e then
        flattenRun pn extras (.exs rest) seen
      else
        let res1 := flattenRun pn extras (.pairs e extras) (e :: seen)
        let res2 := flattenRun pn extras (.exs rest) (res1.2 ++ e :: seen)
        (res1.1 ++ res2.1, res2.2 ++ res1.2 ++ [e])
  | .pairs e l =>
    match l with
    | [] => ([], [])
    | (k, rs) :: rest =>
      if hk : k == e then
        let res1 := flattenRun pn extras (.reqs rs) seen
        let res2 := flattenRun pn extras (.pairs e rest) (res1.2 ++ seen)
        (res1.1 ++ res2.1, res2.2 ++ res1.2)
      else
        flattenRun pn extras (.pairs e rest) seen
termination_by (unseenCount extras seen, taskSize extras t)
decreasing_by
  · -- reqs cons, self-referential: descend into the requirement's extras
    apply Prod.Lex.right
    simp only [taskSize, reqsWeight, List.map_cons, List.sum_cons, reqWeight]
    have hpos : 0 < extras.length + 2 := by omega
    have h1 : r.extras.length * (extras.length + 2) <
        (r.extras.length + 1) * (extras.length + 2) :=
      mul_lt_mul_of_pos_right (Nat.lt_succ_self _) hpos
    have h2 : 0 ≤ (List.map (reqWeight extras.length) rest).sum := Nat.zero_le _
    linarith
  · -- reqs cons, self-referential: continue on the tail with a grown seen
    have key : ∀ d : List ExtraName,
        Prod.Lex (fun a b => a < b) (fun a b => a < b)
          (unseenCount extras (d ++ seen), taskSize extras (FlattenTask.reqs rest))
          (unseenCount extras seen,
            taskSize extras (FlattenTask.reqs (r :: rest))) := by
      intro d
      rcases lt_or_eq_of_le (unseenCount_append_le extras d seen) with hlt | heq
      · exact Prod.Lex.left _ _ hlt
      · rw [heq]
        apply Prod.Lex.right
        simp only [taskSize, reqsWeight, List.map_cons, List.sum_cons, reqWeight]
        have h2 : 0 ≤ (r.extras.length + 1) * (extras.length + 2) := Nat.zero_le _
        linarith
    exact key _
  · -- reqs cons, ordinary requirement: continue on the tail
    apply Prod.Lex.right
    simp only [taskSize, reqsWeight, List.map_cons, List.sum_cons, reqWeight]
    have h2 : 0 ≤ (r.extras.length + 1) * (extras.length + 2) := Nat.zero_le _
    linarith
  · -- exs cons, already visited: skip
    apply Prod.Lex.right
    simp only [taskSize, List.length_cons]
    exact mul_lt_mul_of_pos_right (Nat.lt_succ_self _) (by omega)
  · -- exs cons, newly visited: scan the optional-dependency map
    have hs : seenContains seen e = false := by simpa using h
    by_cases hkey : containsKey extras e = true
    · exact Prod.Lex.left _ _ (unseenCount_cons_lt_of_key extras e seen hkey hs)
    · have hkf : containsKey extras e = false := by simpa using hkey
      rw [unseenCount_cons_eq_of_not_key extras e seen hkf]
      apply Prod.Lex.right
      have hnil : extras.filter (fun p => p.1 == e) = [] := by
        rw [List.filter_eq_nil_iff]
        intro p hp hcon
        have hany : (extras.any fun q => q.1 == e) = true :=
          List.any_eq_true.mpr ⟨p, hp, hcon⟩
        rw [show (extras.any fun q => q.1 == e) = containsKey extras e from rfl,
          hkf] at hany
        cases hany
      simp only [taskSize, hnil, List.map_nil, List.sum_nil, Nat.zero_add,
        List.length_cons]
      have h2 : extras.length + 2 ≤ (rest.length + 1) * (extras.length + 2) :=
        Nat.le_mul_of_pos_left _ (Nat.succ_pos _)
      linarith
  · -- exs cons, newly visited: continue on the tail with a grown seen
    have key : ∀ d : List ExtraName,
        Prod.Lex (fun a b => a < b) (fun a b => a < b)
          (unseenCount extras (d ++ e :: seen),
            taskSize extras (FlattenTask.exs rest))
          (unseenCount extras seen,
            taskSize extras (FlattenTask.exs (e :: rest))) := by
      intro d
      have hle : unseenCount extras (d ++ e :: seen) ≤ unseenCount extras seen := by
        have hrw : d ++ e :: seen = (d ++ [e]) ++ seen := by
          rw [List.append_assoc]
          rfl
        rw [hrw]
        exact le_trans (unseenCount_append_le extras (d ++ [e]) seen) (le_refl _)
      rcases lt_or_eq_of_le hle with hlt | heq
      · exact Prod.Lex.left _ _ hlt
      · rw [heq]
        apply Prod.Lex.right
        simp only [taskSize, List.length_cons]
        exact mul_lt_mul_of_pos_right (Nat.lt_succ_self _) (by omega)
    exact key _
  · -- pairs cons, matching entry: descend into its requirement list
    rename_i e
    apply Prod.Lex.right
    simp only [taskSize]
    rw [List.filter_cons, if_pos (by simp [hk])]
    simp only [List.map_cons, List.sum_cons, List.length_cons]
    omega
  · -- pairs cons, matching entry: continue on the map tail with a grown seen
    rename_i e w
    have key : ∀ d : List ExtraName,
        Prod.Lex (fun a b => a < b) (fun a b => a < b)
          (unseenCount extras (d ++ seen),
            taskSize extras (FlattenTask.pairs e rest))
          (unseenCount extras seen,
            taskSize extras (FlattenTask.pairs e ((k, rs) :: rest))) := by
      intro d
      rcases lt_or_eq_of_le (unseenCount_append_le extras d seen) with hlt | heq
      · exact Prod.Lex.left _ _ hlt
      · rw [heq]
        apply Prod.Lex.right
        simp only [taskSize]
        rw [List.filter_cons, if_pos (by simp [hk])]
        simp only [List.map_cons, List.sum_cons, List.length_cons]
        omega
    exact key _
  · -- pairs cons, non-matching entry: continue on the map tail
    rename_i e
    apply Prod.Lex.right
    simp only [taskSize]
    rw [List.filter_cons, if_neg (by simp [hk])]
    simp only [List.length_cons]
    omega

/-- `flatten_extra` (pyproject.rs): expand a self-referential extra group
into a flat requirement list, starting from an empty visited set. -/
def flatten_extra (project_name : PackageName)
    (requirements : List UvRequirement)
    (extras : List (ExtraName × List UvRequirement)) : List UvRequirement :=
  (flattenRun project_name extras (.reqs requirements) []).1

/-! ### The PEP 508 parser and requirements-txt requirements -/

/-- Modelled from the spec: pep508-rs error payloads are not under src/.
The error source distinguishes an ordinary grammar failure from the
`UnsupportedRequirement` case (text that looks like a bare URL / unnamed
form), which the requirements-txt layer uses for its fallback. -/
inductive Pep508ErrorSource where
  | string (msg : String)
  | unsupportedRequirement (msg : String)
deriving DecidableEq, Repr

/-- Modelled from the spec: a grammar error carrying its source kind and
the offending input text (the position context of the real error is not
needed by any claim). -/
structure Pep508Error where
  message : Pep508ErrorSource
  input : String
deriving DecidableEq, Repr

/-- A character allowed in a package name or extra name. -/
def isNameChar (c : Char) : Bool :=
  c.isAlphanum || c == '-' || c == '_' || c == '.'

/-- Drop double quotes from a marker comparison value. -/
def stripQuotes (s : String) : String :=
  String.mk (s.data.filter (fun c => c != '"'))

/-- Modelled from the spec: one marker comparison atom, `lhs == rhs`; a
left-hand side `extra` is the extras-activation test. -/
def parseMarkerAtom (s : String) : Option MarkerExpr :=
  match s.splitOn "==" with
  | [lhs, rhs] =>
      let l := lhs.trim
      let r := stripQuotes rhs.trim
      if l == "extra" then some (.extraEq ⟨r⟩) else some (.attrEq l r)
  | _ => none

/-- Modelled from the spec: a marker expression as a conjunction of
comparison atoms (the full marker grammar is not under src/). -/
def parseMarker (s : String) : Option MarkerTree :=
  match (s.splitOn " and ").mapM (fun p => parseMarkerAtom p.trim) with
  | some (a :: rest) =>
      some (rest.foldl (fun acc e => .conj acc (.expression e)) (.expression a))
  | _ => none

/-- Parse the bracketed extras list of a requirement string; returns the
extras together with the remaining text, or none on a missing bracket. -/
def parseExtras (rest : String) : Option (List ExtraName × String) :=
  if rest.startsWith "[" then
    let inner := (rest.drop 1).takeWhile (fun c => c != ']')
    if (rest.drop (1 + inner.length)).startsWith "]" then
      let extras := ((inner.splitOn ",").map String.trim).filter
        (fun e => !e.isEmpty)
      some (extras.map (fun e => ⟨e⟩), (rest.drop (inner.length + 2)).trim)
    else
      none
  else
    some ([], rest)

/-- Modelled from the spec: the PEP 508 parser of pep508-rs is not under
src/.  Grammar from the spec:
`name ["[" extra ("," extra)* "]"] [version-spec | "@" url] [";" marker]`;
text that does not start with a name (a bare URL / path) fails with the
distinguishable `UnsupportedRequirement` error so that the
requirements-txt caller can retry with the unnamed grammar. -/
def Requirement.from_str (input : String) : Except Pep508Error Requirement :=
  let (reqPart, markerPart) :=
    match input.splitOn ";" with
    | r :: m :: _ => (r, some m)
    | _ => (input, (none : Option String))
  let s := reqPart.trim
  let name := s.takeWhile isNameChar
  if name.isEmpty then
    .error ⟨.unsupportedRequirement
      ("Expected a named requirement: " ++ input), input⟩
  else
    match parseExtras ((s.drop name.length).trim) with
    | none => .error ⟨.string ("Missing closing bracket: " ++ input), input⟩
    | some (extras, rest) =>
        let marker :=
          match markerPart with
          | none => some (none : Option MarkerTree)
          | some m =>
              match parseMarker m.trim with
              | some t => some (some t)
              | none => none
        match marker with
        | none => .error ⟨.string ("Invalid marker: " ++ input), input⟩
        | some marker =>
            if rest.isEmpty then
              .ok ⟨⟨name⟩, extras, marker, none⟩
            else if rest.startsWith "@" then
              .ok ⟨⟨name⟩, extras, marker,
                some (.url (VerbatimUrl.from_str (rest.drop 1).trim))⟩
            else if "<>=!~".contains (rest.get 0) then
              .ok ⟨⟨name⟩, extras, marker,
                some (.versionSpecifier
                  ⟨(rest.splitOn ",").map String.trim⟩)⟩
            else
              .error ⟨.unsupportedRequirement
                ("Expected a version specifier or URL: " ++ input), input⟩

/-- Modelled from the spec: `UnnamedRequirement` (pep508-rs, not under
src/): a direct-URL requirement with no distributable name. -/
structure UnnamedRequirement where
  url : VerbatimUrl
  extras : List ExtraName
  marker : Option MarkerTree
deriving DecidableEq, Repr

/-- Modelled from the spec: `UnnamedRequirement::evaluate_markers`
(pep508-rs, not under src/): same rule as the named form. -/
def UnnamedRequirement.evaluate_markers (r : UnnamedRequirement)
    (env : MarkerEnvironment) (extras : List ExtraName) : Bool :=
  match r.marker with
  | some marker => marker.evaluate env extras
  | none => true

/-- `RequirementsTxtRequirement` (requirement.rs): named-or-unnamed union
for file-level consumption. -/
inductive RequirementsTxtRequirement where
  | uv (requirement : UvRequirement)
  | unnamed (requirement : UnnamedRequirement)
deriving DecidableEq, Repr

/-- `RequirementsTxtRequirement::evaluate_markers` (requirement.rs):
two-way dispatch. -/
def RequirementsTxtRequirement.evaluate_markers :
    RequirementsTxtRequirement → MarkerEnvironment → List ExtraName → Bool
  | .uv requirement, env, extras => requirement.evaluate_markers env extras
  | .unnamed requirement, env, extras => requirement.evaluate_markers env extras

/-- `RequirementsTxtRequirement::parse` (requirement.rs).  The two
parsers it calls (`Requirement::parse`, `UnnamedRequirement::parse`) live
in pep508-rs, outside src/, so they are taken as parameters: the theorem
about this function quantifies over every possible behavior of both.  On
a successful named parse the source wraps the result through
`UvRequirement::from_requirement`, which can panic. -/
def RequirementsTxtRequirement.parse
    (namedParse : String → Except Pep508Error Requirement)
    (unnamedParse : String → Except Pep508Error UnnamedRequirement)
    (input : String) : PanicOr (Except Pep508Error RequirementsTxtRequirement) :=
  match namedParse input with
  | .ok requirement =>
      match UvRequirement.from_requirement requirement with
      | .value r => .value (.ok (.uv r))
      | .panic m => .panic m
  | .error err =>
      match err.message with
      | .unsupportedRequirement _ =>
          match unnamedParse input with
          | .ok u => .value (.ok (.unnamed u))
          | .error e => .value (.error e)
      | _ => .value (.error err)

/-! ### The manifest layer: lower_requirements and UvMetadata::try_from -/

/-- `UvRequirements` (uv_requirement.rs). -/
structure UvRequirements where
  dependencies : List UvRequirement
  optional_dependencies : List (ExtraName × List UvRequirement)
deriving DecidableEq, Repr

/-- `UvMetadata` (pyproject.rs); `used_extras` (an `FxHashSet`) is kept
as a duplicate-free list in insertion order. -/
structure UvMetadata where
  name : PackageName
  requirements : List UvRequirement
  used_extras : List ExtraName
deriving DecidableEq, Repr

/-- The `anyhow::Error` values flowing out of `lower_requirements`: a
PEP 508 parse error, a lowering error, or either wrapped by the
`with_context` message naming the requirement. -/
inductive AnyhowError where
  | pep508 (e : Pep508Error)
  | lowering (e : LoweringError)
  | context (name : PackageName) (inner : AnyhowError)
deriving DecidableEq, Repr

/-- `Pep621Error` (pyproject.rs). -/
inductive Pep621Error where
  | pep508 (e : Pep508Error)
  | missingEntry (entry : String)
  | loweringError (e : AnyhowError)
deriving DecidableEq, Repr

/-- Modelled from the spec: `ExtrasSpecification` (uv-requirements
lib.rs, not under src/): the requested-extras predicate, supporting
"all extras". -/
inductive ExtrasSpecification where
  | none
  | all
  | some (extras : List ExtraName)
deriving DecidableEq, Repr

/-- Modelled from the spec: no extra was requested. -/
def ExtrasSpecification.is_empty : ExtrasSpecification → Bool
  | .none => true
  | .all => false
  | .some extras => extras.isEmpty

/-- Modelled from the spec: whether a given extra was requested. -/
def ExtrasSpecification.contains : ExtrasSpecification → ExtraName → Bool
  | .none, _ => false
  | .all, _ => true
  | .some extras, e => extras.contains e

/-- One entry of the dependency loop of `lower_requirements`
(pyproject.rs): parse, then lower, wrapping a lowering failure in the
context message that names the requirement. -/
def lowerOne (dependency : String)
    (project_sources workspace_sources : List (PackageName × Source))
    (workspace_packages : List (PackageName × PathBuf)) :
    PanicOr (Except AnyhowError UvRequirement) :=
  match Requirement.from_str dependency with
  | .error e => .value (.error (.pep508 e))
  | .ok requirement =>
      match lower_requirement requirement project_sources workspace_sources
          workspace_packages with
      | .panic m => .panic m
      | .value (.error e) =>
          .value (.error (.context requirement.name (.lowering e)))
      | .value (.ok r) => .value (.ok r)

/-- The dependency loop of `lower_requirements` (pyproject.rs): the Rust
`collect::<Result<_>>` short-circuits on the first error. -/
def lowerDeps (deps : List String)
    (project_sources workspace_sources : List (PackageName × Source))
    (workspace_packages : List (PackageName × PathBuf)) :
    PanicOr (Except AnyhowError (List UvRequirement)) :=
  match deps with
  | [] => .value (.ok [])
  | d :: rest =>
      match lowerOne d project_sources workspace_sources workspace_packages with
      | .panic m => .panic m
      | .value (.error e) => .value (.error e)
      | .value (.ok r) =>
          match lowerDeps rest project_sources workspace_sources
              workspace_packages with
          | .panic m => .panic m
          | .value (.error e) => .value (.error e)
          | .value (.ok rs) => .value (.ok (r :: rs))

/-- The optional-dependency loop of `lower_requirements` (pyproject.rs). -/
def lowerOptional (groups : List (ExtraName × List String))
    (project_sources workspace_sources : List (PackageName × Source))
    (workspace_packages : List (PackageName × PathBuf)) :
    PanicOr (Except AnyhowError (List (ExtraName × List UvRequirement))) :=
  match groups with
  | [] => .value (.ok [])
  | (extra_name, deps) :: rest =>
      match lowerDeps deps project_sources workspace_sources
          workspace_packages with
      | .panic m => .panic m
      | .value (.error e) => .value (.error e)
      | .value (.ok rs) =>
          match lowerOptional rest project_sources workspace_sources
              workspace_packages with
          | .panic m => .panic m
          | .value (.error e) => .value (.error e)
          | .value (.ok gs) => .value (.ok ((extra_name, rs) :: gs))

/-- `lower_requirements` (pyproject.rs). -/
def lower_requirements (dependencies : List String)
    (optional_dependencies : List (ExtraName × List String))
    (project_sources workspace_sources : List (PackageName × Source))
    (workspace_packages : List (PackageName × PathBuf)) :
    PanicOr (Except AnyhowError UvRequirements) :=
  match lowerDeps dependencies project_sources workspace_sources
      workspace_packages with
  | .panic m => .panic m
  | .value (.error e) => .value (.error e)
  | .value (.ok deps) =>
      match lowerOptional optional_dependencies project_sources
          workspace_sources workspace_packages with
      | .panic m => .panic m
      | .value (.error e) => .value (.error e)
      | .value (.ok opt) => .value (.ok ⟨deps, opt⟩)

/-- `UvWorkspace` (pyproject.rs); glob patterns kept as text. -/
structure UvWorkspace where
  members : Option (List String)
  exclude : Option (List String)
deriving DecidableEq, Repr

/-- `Uv` (pyproject.rs): the `tool.uv` table. -/
structure Uv where
  sources : Option (List (PackageName × Source))
  workspace : Option UvWorkspace
deriving DecidableEq, Repr

/-- `Tool` (pyproject.rs). -/
structure Tool where
  uv : Option Uv
deriving DecidableEq, Repr

/-- `Project` (pyproject.rs): the PEP 621 subset consumed. -/
structure Project where
  name : PackageName
  dependencies : Option (List String)
  optional_dependencies : Option (List (ExtraName × List String))
  dynamic : Option (List String)
deriving DecidableEq, Repr

/-- `PyProjectToml` (pyproject.rs). -/
structure PyProjectToml where
  project : Option Project
  tool : Option Tool
deriving DecidableEq, Repr

/-- The `project_sources` binding of `UvMetadata::try_from`
(pyproject.rs): `pyproject.tool.as_ref().and_then(uv).and_then(sources)`. -/
def projectSources (pyproject : PyProjectToml) :
    Option (List (PackageName × Source)) :=
  match pyproject.tool with
  | Option.none => Option.none
  | Option.some tool =>
      match tool.uv with
      | Option.none => Option.none
      | Option.some uv => uv.sources

/-- The `has_sources` test of `UvMetadata::try_from` (pyproject.rs):
a project-level sources table is present, or the workspace sources map
is non-empty. -/
def hasSources (pyproject : PyProjectToml)
    (workspace_sources : List (PackageName × Source)) : Bool :=
  (projectSources pyproject).isSome || !workspace_sources.isEmpty

/-- The `dynamic.iter().any(|field| field == ...)` test of
`UvMetadata::try_from` (pyproject.rs); false when `dynamic` is absent. -/
def dynamicHas (project : Project) (field : String) : Bool :=
  match project.dynamic with
  | Option.none => false
  | Option.some dynamic => dynamic.any (fun f => f == field)

/-- `FxHashSet::insert` on the used-extras set, as a duplicate-free
insertion-ordered list. -/
def insertUsedExtra (used : List ExtraName) (e : ExtraName) : List ExtraName :=
  if seenContains used e then used else used ++ [e]

/-- The tail of `UvMetadata::try_from` (pyproject.rs) after the dynamic
gates: lower everything, then fold the requested extras' groups through
`flatten_extra`. -/
def extractLowered (project : Project) (extras : ExtrasSpecification)
    (project_sources workspace_sources : List (PackageName × Source))
    (workspace_packages : List (PackageName × PathBuf)) :
    PanicOr (Except Pep621Error (Option UvMetadata)) :=
  let name := project.name
  match lower_requirements (project.dependencies.getD [])
      (project.optional_dependencies.getD []) project_sources
      workspace_sources workspace_packages with
  | .panic m => .panic m
  | .value (.error e) => .value (.error (.loweringError e))
  | .value (.ok uv_requirements) =>
      let base := uv_requirements.dependencies
      let step :=
        if extras.is_empty then (base, ([] : List ExtraName))
        else
          uv_requirements.optional_dependencies.foldl
            (fun acc p =>
              if extras.contains p.1 then
                (acc.1 ++ flatten_extra name p.2
                    uv_requirements.optional_dependencies,
                  insertUsedExtra acc.2 p.1)
              else acc)
            (base, ([] : List ExtraName))
      .value (.ok (Option.some ⟨name, step.1, step.2⟩))

/-- `UvMetadata::try_from` (pyproject.rs): decide whether static
extraction is possible, then extract. -/
def tryFrom (pyproject : PyProjectToml) (extras : ExtrasSpecification)
    (workspace_sources : List (PackageName × Source))
    (workspace_packages : List (PackageName × PathBuf)) :
    PanicOr (Except Pep621Error (Option UvMetadata)) :=
  let project_sources := projectSources pyproject
  let has_sources := hasSources pyproject workspace_sources
  match pyproject.project with
  | Option.none =>
      if has_sources then .value (.error (.missingEntry "[project]"))
      else .value (.ok Option.none)
  | Option.some project =>
      if dynamicHas project "dependencies" then
        if has_sources then
          .value (.error (.missingEntry "[project.dependencies]"))
        else .value (.ok Option.none)
      else if !extras.is_empty && dynamicHas project "optional-dependencies" then
        if has_sources then
          .value (.error (.missingEntry "[project.optional-dependencies]"))
        else .value (.ok Option.none)
      else
        extractLowered project extras (project_sources.getD [])
          workspace_sources workspace_packages

/-! ### The serde-untagged deserialization of `Source` (pyproject.rs)

`Source` derives `Deserialize` with `#[serde(untagged)]`: serde tries
the variants in declaration order; a struct variant matches when every
non-`Option` field is present with the right type ( `Option` fields may
be absent, but when present must have the right type); unknown keys are
ignored (no `deny_unknown_fields`); the first matching variant wins. -/

/-- A raw TOML value of the kinds `Source` fields use. -/
inductive TomlValue where
  | str (s : String)
  | boolean (b : Bool)
deriving DecidableEq, Repr

/-- A required string field: present with string type, or no match. -/
def tableReqStr (t : List (String × TomlValue)) (k : String) : Option String :=
  match lookupMap t k with
  | Option.some (.str s) => Option.some s
  | _ => Option.none

/-- An optional string field: absent, or present with string type. -/
def tableOptStr (t : List (String × TomlValue)) (k : String) :
    Option (Option String) :=
  match lookupMap t k with
  | Option.none => Option.some Option.none
  | Option.some (.str s) => Option.some (Option.some s)
  | Option.some _ => Option.none

/-- A required boolean field. -/
def tableReqBool (t : List (String × TomlValue)) (k : String) : Option Bool :=
  match lookupMap t k with
  | Option.some (.boolean b) => Option.some b
  | _ => Option.none

/-- An optional boolean field. -/
def tableOptBool (t : List (String × TomlValue)) (k : String) :
    Option (Option Bool) :=
  match lookupMap t k with
  | Option.none => Option.some Option.none
  | Option.some (.boolean b) => Option.some (Option.some b)
  | Option.some _ => Option.none

/-- Match the `Git` variant: required `git`, optional `rev`, `tag`,
`branch`. -/
def deserializeGit (t : List (String × TomlValue)) : Option Source :=
  match tableReqStr t "git", tableOptStr t "rev", tableOptStr t "tag",
      tableOptStr t "branch" with
  | Option.some git, Option.some rev, Option.some tag, Option.some branch =>
      Option.some (.git git rev tag branch)
  | _, _, _, _ => Option.none

/-- Match the `Url` variant: required `url`. -/
def deserializeUrl (t : List (String × TomlValue)) : Option Source :=
  (tableReqStr t "url").map .url

/-- Match the `Path` variant: required `patch` (the field's literal
spelling in the source), optional `editable`. -/
def deserializePath (t : List (String × TomlValue)) : Option Source :=
  match tableReqStr t "patch", tableOptBool t "editable" with
  | Option.some patch, Option.some editable =>
      Option.some (.path patch editable)
  | _, _ => Option.none

/-- Match the `Registry` variant: required `index`. -/
def deserializeRegistry (t : List (String × TomlValue)) : Option Source :=
  (tableReqStr t "index").map .registry

/-- Match the `Workspace` variant: required `workspace`, optional
`editable`. -/
def deserializeWorkspace (t : List (String × TomlValue)) : Option Source :=
  match tableReqBool t "workspace", tableOptBool t "editable" with
  | Option.some workspace, Option.some editable =>
      Option.some (.workspace workspace editable)
  | _, _ => Option.none

/-- Match the `CatchAll` variant: all of `git`, `url`, `patch`, `index`,
`workspace` required, `rev`, `tag`, `branch` optional. -/
def deserializeCatchAll (t : List (String × TomlValue)) : Option Source :=
  match tableReqStr t "git", tableOptStr t "rev", tableOptStr t "tag",
      tableOptStr t "branch", tableReqStr t "url", tableReqStr t "patch",
      tableReqStr t "index", tableReqBool t "workspace" with
  | Option.some git, Option.some rev, Option.some tag, Option.some branch,
      Option.some url, Option.some patch, Option.some index,
      Option.some workspace =>
      Option.some (.catchAll git rev tag branch url patch index workspace)
  | _, _, _, _, _, _, _, _ => Option.none

/-- The serde-untagged deserializer of `Source` (pyproject.rs): variants
tried in declaration order, first match wins, `none` is serde's "data
did not match any variant" error. -/
def deserializeSource (t : List (String × TomlValue)) : Option Source :=
  match deserializeGit t with
  | Option.some s => Option.some s
  | Option.none =>
      match deserializeUrl t with
      | Option.some s => Option.some s
      | Option.none =>
          match deserializePath t with
          | Option.some s => Option.some s
          | Option.none =>
              match deserializeRegistry t with
              | Option.some s => Option.some s
              | Option.none =>
                  match deserializeWorkspace t with
                  | Option.some s => Option.some s
                  | Option.none => deserializeCatchAll t

/-! ### Claim theorems -/

/-- C1 (amended): for every parsed requirement whose name is a key of the
workspace-membership map, `lower_requirement` fails with the policy error
naming the package whenever the resolved override (project map taking
precedence over workspace map) is not `Workspace{workspace:true}`; and
when the resolved override is `Workspace{workspace:true}`, the membership
check passes but the `Workspace` lowering arm is `todo!()` in this
revision, so the call panics instead of succeeding — regardless of the
member's path. -/
theorem C1_workspace_member_policy
    (requirement : Requirement)
    (project_sources workspace_sources : List (PackageName × Source))
    (workspace_packages : List (PackageName × PathBuf))
    (hmem : containsKey workspace_packages requirement.name = true) :
    (matchesWorkspaceTrue
        (resolvedSource requirement project_sources workspace_sources) = false →
      lower_requirement requirement project_sources workspace_sources
          workspace_packages
        = .value (.error (.workspacePolicy requirement.name))) ∧
    (matchesWorkspaceTrue
        (resolvedSource requirement project_sources workspace_sources) = true →
      lower_requirement requirement project_sources workspace_sources
          workspace_packages = .panic "not yet implemented") := by
  constructor
  · intro hws
    simp [lower_requirement, hws, hmem]
  · intro hws
    have hsome : ∃ ed,
        resolvedSource requirement project_sources workspace_sources
          = Option.some (Source.workspace true ed) := by
      cases hsrc : resolvedSource requirement project_sources workspace_sources with
      | none => rw [hsrc] at hws; simp [matchesWorkspaceTrue] at hws
      | some s =>
        cases s with
        | workspace w ed =>
          cases w with
          | false => rw [hsrc] at hws; simp [matchesWorkspaceTrue] at hws
          | true => exact ⟨ed, rfl⟩
        | git g rev tag branch =>
          rw [hsrc] at hws; simp [matchesWorkspaceTrue] at hws
        | url u => rw [hsrc] at hws; simp [matchesWorkspaceTrue] at hws
        | path p ed => rw [hsrc] at hws; simp [matchesWorkspaceTrue] at hws
        | registry i => rw [hsrc] at hws; simp [matchesWorkspaceTrue] at hws
        | catchAll g rev tag branch u p i w =>
          rw [hsrc] at hws; simp [matchesWorkspaceTrue] at hws
    obtain ⟨ed, hsrc⟩ := hsome
    simp [lower_requirement, hsrc, matchesWorkspaceTrue]

/-- C1 witness: the policy-error half of `C1_workspace_member_policy` at
a concrete member with no override. -/
theorem C1_workspace_member_policy_witness :
    lower_requirement ⟨⟨"a"⟩, [], Option.none, Option.none⟩ [] []
        [(⟨"a"⟩, ⟨"p"⟩)]
      = .value (.error (.workspacePolicy ⟨"a"⟩)) :=
  (C1_workspace_member_policy ⟨⟨"a"⟩, [], Option.none, Option.none⟩ [] []
    [(⟨"a"⟩, ⟨"p"⟩)] (by decide)).1 (by decide)

/-- C1 counterexample to the claim as stated: a workspace member with the
override `Workspace{workspace:true}` does not lower successfully to a
Workspace-derived source; the call panics on the `todo!()` arm. -/
theorem C1_workspace_true_panics :
    lower_requirement ⟨⟨"a"⟩, [], Option.none, Option.none⟩ []
        [(⟨"a"⟩, Source.workspace true Option.none)] [(⟨"a"⟩, ⟨"p"⟩)]
      = .panic "not yet implemented" := rfl

/-- C2 (amended): whenever the override resolved for a requirement (that
is not a workspace member, whose policy check fires first) is a `Path` or
`Registry` variant, `lower_requirement` halts at once on the `todo!()`
arm: it panics with "not yet implemented" rather than returning a typed
"not yet supported" error, and never returns a partially-populated
result. -/
theorem C2_path_registry_unimplemented
    (requirement : Requirement)
    (project_sources workspace_sources : List (PackageName × Source))
    (workspace_packages : List (PackageName × PathBuf))
    (hmem : containsKey workspace_packages requirement.name = false) :
    (∀ p ed, resolvedSource requirement project_sources workspace_sources
        = Option.some (Source.path p ed) →
      lower_requirement requirement project_sources workspace_sources
          workspace_packages = .panic "not yet implemented") ∧
    (∀ i, resolvedSource requirement project_sources workspace_sources
        = Option.some (Source.registry i) →
      lower_requirement requirement project_sources workspace_sources
          workspace_packages = .panic "not yet implemented") := by
  constructor
  · intro p ed hsrc
    simp [lower_requirement, hsrc, hmem]
  · intro i hsrc
    simp [lower_requirement, hsrc, hmem]

/-- C2 witness: `C2_path_registry_unimplemented` at a concrete `Path`
override. -/
theorem C2_path_registry_unimplemented_witness :
    lower_requirement ⟨⟨"a"⟩, [], Option.none, Option.none⟩
        [(⟨"a"⟩, Source.path "p" Option.none)] [] []
      = .panic "not yet implemented" :=
  (C2_path_registry_unimplemented ⟨⟨"a"⟩, [], Option.none, Option.none⟩
    [(⟨"a"⟩, Source.path "p" Option.none)] [] [] (by decide)).1 "p" Option.none
    (by decide)

/-- C2 counterexample to the claim as stated: a `Registry` override makes
`lower_requirement` panic (a crash), not return a typed "not yet
supported" lowering error. -/
theorem C2_registry_override_panics :
    lower_requirement ⟨⟨"b"⟩, [], Option.none, Option.none⟩
        [(⟨"b"⟩, Source.registry "idx")] [] []
      = .panic "not yet implemented" := rfl

/-- C3 (amended): for every parsed requirement with no override in either
source map and whose name is not a workspace member: with neither a
version constraint nor a URL the lowering fails with the
missing-constraint error; with a version constraint it returns a
`UvRequirement` whose source is `Registry{version, index: none}` carrying
the requirement's version specifiers; with a URL the conversion
(`UvRequirement::from_requirement`) is `todo!()` and the call panics. -/
theorem C3_no_override_registry
    (requirement : Requirement)
    (project_sources workspace_sources : List (PackageName × Source))
    (workspace_packages : List (PackageName × PathBuf))
    (hsrc : resolvedSource requirement project_sources workspace_sources
      = Option.none)
    (hmem : containsKey workspace_packages requirement.name = false) :
    (requirement.version_or_url = Option.none →
      lower_requirement requirement project_sources workspace_sources
          workspace_packages = .value (.error .missingConstraint)) ∧
    (∀ v, requirement.version_or_url
        = Option.some (VersionOrUrl.versionSpecifier v) →
      lower_requirement requirement project_sources workspace_sources
          workspace_packages
        = .value (.ok ⟨requirement.name, requirement.extras,
            requirement.marker, .registry v Option.none⟩)) ∧
    (∀ u, requirement.version_or_url = Option.some (VersionOrUrl.url u) →
      lower_requirement requirement project_sources workspace_sources
          workspace_packages
        = .panic "not yet implemented: match on the url type") := by
  refine ⟨?_, ?_, ?_⟩
  · intro hv
    simp [lower_requirement, hsrc, hmem, hv]
  · intro v hv
    simp [lower_requirement, hsrc, hmem, hv, UvRequirement.from_requirement]
  · intro u hv
    simp [lower_requirement, hsrc, hmem, hv, UvRequirement.from_requirement]

/-- C3 witness: `C3_no_override_registry` at a concrete requirement with
a version constraint. -/
theorem C3_no_override_registry_witness :
    lower_requirement
        ⟨⟨"a"⟩, [], Option.none,
          Option.some (VersionOrUrl.versionSpecifier ⟨[">=1"]⟩)⟩ [] [] []
      = .value (.ok ⟨⟨"a"⟩, [], Option.none, .registry ⟨[">=1"]⟩ Option.none⟩) :=
  (C3_no_override_registry
    ⟨⟨"a"⟩, [], Option.none,
      Option.some (VersionOrUrl.versionSpecifier ⟨[">=1"]⟩)⟩ [] [] []
    (by decide) (by decide)).2.1 ⟨[">=1"]⟩ rfl

/-- C3 counterexample to the claim as stated: a requirement carrying a
URL and no override does not produce a `Registry` source — the conversion
panics on the `todo!("match on the url type")` arm. -/
theorem C3_url_requirement_panics :
    lower_requirement
        ⟨⟨"a"⟩, [], Option.none, Option.some (VersionOrUrl.url ⟨"https://x"⟩)⟩
        [] [] []
      = .panic "not yet implemented: match on the url type" := rfl

/-- C5 (amended): for every `Git` override resolved for a requirement
that is not a workspace member (whose policy check fires first),
`lower_requirement` builds `UvSource::Git{url, version}` when zero or one
of `rev`, `tag`, `branch` is set — the version being absent, `Rev`,
`Tag` or `Branch` respectively — and fails with the hard conflict error
whenever two or more are set simultaneously. -/
theorem C5_git_override
    (requirement : Requirement)
    (project_sources workspace_sources : List (PackageName × Source))
    (workspace_packages : List (PackageName × PathBuf))
    (g : String) (rev tag branch : Option String)
    (hmem : containsKey workspace_packages requirement.name = false)
    (hsrc : resolvedSource requirement project_sources workspace_sources
      = Option.some (Source.git g rev tag branch)) :
    (rev = Option.none → tag = Option.none → branch = Option.none →
      lower_requirement requirement project_sources workspace_sources
          workspace_packages
        = .value (.ok ⟨requirement.name, requirement.extras,
            requirement.marker,
            .git (VerbatimUrl.from_str g) Option.none⟩)) ∧
    (∀ r, rev = Option.some r → tag = Option.none → branch = Option.none →
      lower_requirement requirement project_sources workspace_sources
          workspace_packages
        = .value (.ok ⟨requirement.name, requirement.extras,
            requirement.marker,
            .git (VerbatimUrl.from_str g) (Option.some (.rev r))⟩)) ∧
    (∀ t, rev = Option.none → tag = Option.some t → branch = Option.none →
      lower_requirement requirement project_sources workspace_sources
          workspace_packages
        = .value (.ok ⟨requirement.name, requirement.extras,
            requirement.marker,
            .git (VerbatimUrl.from_str g) (Option.some (.tag t))⟩)) ∧
    (∀ b, rev = Option.none → tag = Option.none → branch = Option.some b →
      lower_requirement requirement project_sources workspace_sources
          workspace_packages
        = .value (.ok ⟨requirement.name, requirement.extras,
            requirement.marker,
            .git (VerbatimUrl.from_str g) (Option.some (.branch b))⟩)) ∧
    (2 ≤ (if rev.isSome then 1 else 0) + (if tag.isSome then 1 else 0)
        + (if branch.isSome then 1 else 0) →
      lower_requirement requirement project_sources workspace_sources
          workspace_packages
        = .value (.error .conflictingGitRefs)) := by
  refine ⟨?_, ?_, ?_, ?_, ?_⟩
  · rintro rfl rfl rfl
    simp [lower_requirement, hsrc, hmem, resolveGitRef]
  · rintro r rfl rfl rfl
    simp [lower_requirement, hsrc, hmem, resolveGitRef]
  · rintro t rfl rfl rfl
    simp [lower_requirement, hsrc, hmem, resolveGitRef]
  · rintro b rfl rfl rfl
    simp [lower_requirement, hsrc, hmem, resolveGitRef]
  · intro hcount
    rcases rev with _ | r <;> rcases tag with _ | t <;> rcases branch with _ | b <;>
      first
        | (simp [lower_requirement, hsrc, hmem, resolveGitRef]; done)
        | (exfalso; simp at hcount)

/-- C5 witness: `C5_git_override` at a concrete override with only `rev`
set. -/
theorem C5_git_override_witness :
    lower_requirement ⟨⟨"a"⟩, [], Option.none, Option.none⟩
        [(⟨"a"⟩, Source.git "u" (Option.some "r") Option.none Option.none)]
        [] []
      = .value (.ok ⟨⟨"a"⟩, [], Option.none,
          .git ⟨"u"⟩ (Option.some (.rev "r"))⟩) :=
  (C5_git_override ⟨⟨"a"⟩, [], Option.none, Option.none⟩
    [(⟨"a"⟩, Source.git "u" (Option.some "r") Option.none Option.none)] [] []
    "u" (Option.some "r") Option.none Option.none (by decide) (by decide)).2.1
    "r" rfl rfl rfl

/-- C5 counterexample to the claim as stated: for a workspace member, a
`Git` override with both `rev` and `tag` set yields the workspace policy
error (the membership check precedes override conversion), not the
conflict error the claim promises for every such override. -/
theorem C5_member_preempts_conflict :
    lower_requirement ⟨⟨"a"⟩, [], Option.none, Option.none⟩
        [(⟨"a"⟩, Source.git "u" (Option.some "r") (Option.some "t")
          Option.none)] [] [(⟨"a"⟩, ⟨"p"⟩)]
      = .value (.error (.workspacePolicy ⟨"a"⟩)) := rfl

/-- C4: `UvMetadata::try_from` at each dynamic-data gate — no project
table, `dependencies` dynamic, or `optional-dependencies` dynamic with at
least one extra requested — returns `None` when no override sources
exist and the `MissingEntry` error when they exist; in all other cases it
proceeds to lowering (the `extractLowered` tail). -/
theorem C4_try_from_dynamic_gates
    (pyproject : PyProjectToml) (extras : ExtrasSpecification)
    (workspace_sources : List (PackageName × Source))
    (workspace_packages : List (PackageName × PathBuf)) :
    (pyproject.project = Option.none →
      tryFrom pyproject extras workspace_sources workspace_packages
        = if hasSources pyproject workspace_sources then
            .value (.error (.missingEntry "[project]"))
          else .value (.ok Option.none)) ∧
    (∀ project, pyproject.project = Option.some project →
      dynamicHas project "dependencies" = true →
      tryFrom pyproject extras workspace_sources workspace_packages
        = if hasSources pyproject workspace_sources then
            .value (.error (.missingEntry "[project.dependencies]"))
          else .value (.ok Option.none)) ∧
    (∀ project, pyproject.project = Option.some project →
      dynamicHas project "dependencies" = false →
      extras.is_empty = false →
      dynamicHas project "optional-dependencies" = true →
      tryFrom pyproject extras workspace_sources workspace_packages
        = if hasSources pyproject workspace_sources then
            .value (.error (.missingEntry "[project.optional-dependencies]"))
          else .value (.ok Option.none)) ∧
    (∀ project, pyproject.project = Option.some project →
      dynamicHas project "dependencies" = false →
      (extras.is_empty = true ∨
        dynamicHas project "optional-dependencies" = false) →
      tryFrom pyproject extras workspace_sources workspace_packages
        = extractLowered project extras ((projectSources pyproject).getD [])
            workspace_sources workspace_packages) := by
  refine ⟨?_, ?_, ?_, ?_⟩
  · intro hp
    simp [tryFrom, hp]
  · intro project hp hdyn
    simp [tryFrom, hp, hdyn]
  · intro project hp hdyn hne hopt
    simp [tryFrom, hp, hdyn, hne, hopt]
  · intro project hp hdyn hrest
    rcases hrest with hemp | hopt
    · simp [tryFrom, hp, hdyn, hemp]
    · simp [tryFrom, hp, hdyn, hopt]

/-- C4 witness: the `dependencies`-dynamic gate with no override sources
returns `None`. -/
theorem C4_try_from_dynamic_gates_witness :
    tryFrom ⟨Option.some ⟨⟨"p"⟩, Option.none, Option.none,
        Option.some ["dependencies"]⟩, Option.none⟩ .none [] []
      = .value (.ok Option.none) := by
  have h := (C4_try_from_dynamic_gates
    ⟨Option.some ⟨⟨"p"⟩, Option.none, Option.none,
      Option.some ["dependencies"]⟩, Option.none⟩ .none [] []).2.1
    ⟨⟨"p"⟩, Option.none, Option.none, Option.some ["dependencies"]⟩ rfl
    (by decide)
  simpa [hasSources, projectSources] using h

/-- C6: `flattenRun` is a total function (it is accepted by the
termination checker against the visited-set measure), an already-visited
extra is skipped rather than re-expanded, and the spec's mutually
recursive example — `dev` depending on `proj[test]` and `test` on
`proj[dev]` — terminates with a finite flattened list (here the empty
list: both groups contain only self-references). -/
theorem C6_flatten_extra_cycle_protection :
    (∀ (pn : PackageName) (extras : List (ExtraName × List UvRequirement))
        (e : ExtraName) (rest : List ExtraName) (seen : List ExtraName),
      seenContains seen e = true →
        flattenRun pn extras (.exs (e :: rest)) seen
          = flattenRun pn extras (.exs rest) seen) ∧
    flatten_extra ⟨"proj"⟩
        [⟨⟨"proj"⟩, [⟨"test"⟩], Option.none, .registry ⟨[]⟩ Option.none⟩]
        [(⟨"dev"⟩,
          [⟨⟨"proj"⟩, [⟨"test"⟩], Option.none, .registry ⟨[]⟩ Option.none⟩]),
         (⟨"test"⟩,
          [⟨⟨"proj"⟩, [⟨"dev"⟩], Option.none, .registry ⟨[]⟩ Option.none⟩])]
      = [] := by
  constructor
  · intro pn extras e rest seen h
    conv_lhs => rw [flattenRun]
    simp [h]
  · simp [flatten_extra, flattenRun, seenContains]

/-- C6 witness: the skip equation of `C6_flatten_extra_cycle_protection`
at a concrete visited extra. -/
theorem C6_flatten_extra_cycle_protection_witness :
    flattenRun ⟨"p"⟩ [] (.exs [⟨"x"⟩]) [⟨"x"⟩]
      = flattenRun ⟨"p"⟩ [] (.exs []) [⟨"x"⟩] :=
  C6_flatten_extra_cycle_protection.1 ⟨"p"⟩ [] ⟨"x"⟩ [] [⟨"x"⟩] (by decide)

/-- C7: `RequirementsTxtRequirement::parse` first attempts the named
PEP 508 parse; on success it returns the `Uv` form (through
`from_requirement`); only when the named parse fails with an
`UnsupportedRequirement` error does it retry the same input with the
unnamed parser, and any other parse error is propagated unchanged.
Quantified over every behavior of the two parsers, which live outside
src/. -/
theorem C7_requirements_txt_fallback
    (namedParse : String → Except Pep508Error Requirement)
    (unnamedParse : String → Except Pep508Error UnnamedRequirement)
    (input : String) :
    (∀ requirement, namedParse input = .ok requirement →
      RequirementsTxtRequirement.parse namedParse unnamedParse input
        = match UvRequirement.from_requirement requirement with
          | .value r => .value (.ok (.uv r))
          | .panic m => .panic m) ∧
    (∀ err msg, namedParse input = .error err →
      err.message = .unsupportedRequirement msg →
      RequirementsTxtRequirement.parse namedParse unnamedParse input
        = match unnamedParse input with
          | .ok u => .value (.ok (.unnamed u))
          | .error e => .value (.error e)) ∧
    (∀ err msg, namedParse input = .error err →
      err.message = .string msg →
      RequirementsTxtRequirement.parse namedParse unnamedParse input
        = .value (.error err)) := by
  refine ⟨?_, ?_, ?_⟩
  · intro requirement h
    simp [RequirementsTxtRequirement.parse, h]
  · intro err msg h hmsg
    simp [RequirementsTxtRequirement.parse, h, hmsg]
  · intro err msg h hmsg
    simp [RequirementsTxtRequirement.parse, h, hmsg]

/-- C7 witness: the fallback branch of `C7_requirements_txt_fallback` at
concrete parsers — the named parse reports `UnsupportedRequirement`, so
the unnamed parse's result is returned. -/
theorem C7_requirements_txt_fallback_witness :
    RequirementsTxtRequirement.parse
        (fun s => .error ⟨.unsupportedRequirement "u", s⟩)
        (fun s => .ok ⟨⟨s⟩, [], Option.none⟩) "./pkg"
      = .value (.ok (.unnamed ⟨⟨"./pkg"⟩, [], Option.none⟩)) := by
  have h := (C7_requirements_txt_fallback
    (fun s => .error ⟨.unsupportedRequirement "u", s⟩)
    (fun s => .ok ⟨⟨s⟩, [], Option.none⟩) "./pkg").2.1
    ⟨.unsupportedRequirement "u", "./pkg"⟩ "u" rfl rfl
  simpa using h

/-- C8: evaluating the untagged deserializer of `Source` shows the code
bug the claim exposes: a table whose keys are `path` (with or without
`editable`) matches no variant at all — the `Path` variant's field is
literally spelled `patch` in the source — while a table with key `patch`
does produce the `Path` variant. -/
theorem C8_path_key_is_misspelled :
    deserializeSource [("path", .str "crates/a")] = Option.none ∧
    deserializeSource [("path", .str "crates/a"), ("editable", .boolean false)]
      = Option.none ∧
    deserializeSource [("patch", .str "crates/a")]
      = Option.some (.path "crates/a" Option.none) :=
  ⟨rfl, rfl, rfl⟩

/-- C9: `evaluate_markers` returns true when the requirement has no
marker — for named, unnamed and file-level requirements alike — and
otherwise evaluates the marker AST against the environment and the
supplied extras, where a term `extra == "x"` holds exactly when `x` is in
the supplied enabled-extras set. -/
theorem C9_evaluate_markers
    (env : MarkerEnvironment) (extras : List ExtraName) :
    (∀ r : UvRequirement, r.marker = Option.none →
      r.evaluate_markers env extras = true) ∧
    (∀ (r : UvRequirement) m, r.marker = Option.some m →
      r.evaluate_markers env extras = m.evaluate env extras) ∧
    (∀ u : UnnamedRequirement, u.marker = Option.none →
      u.evaluate_markers env extras = true) ∧
    (∀ (u : UnnamedRequirement) m, u.marker = Option.some m →
      u.evaluate_markers env extras = m.evaluate env extras) ∧
    (∀ r : UvRequirement,
      (RequirementsTxtRequirement.uv r).evaluate_markers env extras
        = r.evaluate_markers env extras) ∧
    (∀ u : UnnamedRequirement,
      (RequirementsTxtRequirement.unnamed u).evaluate_markers env extras
        = u.evaluate_markers env extras) ∧
    (∀ x : ExtraName,
      MarkerTree.evaluate (.expression (.extraEq x)) env extras
        = extras.contains x) := by
  refine ⟨?_, ?_, ?_, ?_, ?_, ?_, ?_⟩
  · intro r h
    simp [UvRequirement.evaluate_markers, h]
  · intro r m h
    simp [UvRequirement.evaluate_markers, h]
  · intro u h
    simp [UnnamedRequirement.evaluate_markers, h]
  · intro u m h
    simp [UnnamedRequirement.evaluate_markers, h]
  · intro r
    simp [RequirementsTxtRequirement.evaluate_markers]
  · intro u
    simp [RequirementsTxtRequirement.evaluate_markers]
  · intro x
    simp [MarkerTree.evaluate]

/-- C9 witness: `C9_evaluate_markers` at a concrete marker-free
requirement and a concrete extras atom. -/
theorem C9_evaluate_markers_witness :
    UvRequirement.evaluate_markers
        ⟨⟨"a"⟩, [], Option.none, .registry ⟨[]⟩ Option.none⟩ ⟨[]⟩ [] = true ∧
    MarkerTree.evaluate (.expression (.extraEq ⟨"x"⟩)) ⟨[]⟩ [⟨"x"⟩]
      = ([⟨"x"⟩] : List ExtraName).contains ⟨"x"⟩ :=
  ⟨(C9_evaluate_markers ⟨[]⟩ []).1
      ⟨⟨"a"⟩, [], Option.none, .registry ⟨[]⟩ Option.none⟩ rfl,
    (C9_evaluate_markers ⟨[]⟩ [⟨"x"⟩]).2.2.2.2.2.2 ⟨"x"⟩⟩

/-- C10: the overrides-exist test of `UvMetadata::try_from` is mere
presence: an empty but present `[tool.uv.sources]` table makes
`has_sources` true, so a manifest with dynamic dependencies (or with no
`[project]` table) then yields the `MissingEntry` error rather than
`None`, even though the table names no package; a non-empty workspace
sources map triggers the same; without either, the same dynamic manifest
yields `None`. -/
theorem C10_empty_sources_table_counts :
    hasSources ⟨Option.none,
        Option.some ⟨Option.some ⟨Option.some [], Option.none⟩⟩⟩ [] = true ∧
    tryFrom ⟨Option.some ⟨⟨"p"⟩, Option.none, Option.none,
          Option.some ["dependencies"]⟩,
        Option.some ⟨Option.some ⟨Option.some [], Option.none⟩⟩⟩ .none [] []
      = .value (.error (.missingEntry "[project.dependencies]")) ∧
    tryFrom ⟨Option.none,
        Option.some ⟨Option.some ⟨Option.some [], Option.none⟩⟩⟩ .none [] []
      = .value (.error (.missingEntry "[project]")) ∧
    tryFrom ⟨Option.some ⟨⟨"p"⟩, Option.none, Option.none,
          Option.some ["dependencies"]⟩, Option.none⟩ .none
        [(⟨"q"⟩, Source.url "u")] []
      = .value (.error (.missingEntry "[project.dependencies]")) ∧
    tryFrom ⟨Option.some ⟨⟨"p"⟩, Option.none, Option.none,
          Option.some ["dependencies"]⟩, Option.none⟩ .none [] []
      = .value (.ok Option.none) :=
  ⟨rfl, rfl, rfl, rfl, rfl⟩

end UvSpec
